import Mathlib

/-
Verification development for the `blaskontrol` dependency-injection container
(src/index.ts, class `Container`).

The embedding is a shallow one: the mutable object graph of a single container
family is modelled as an explicit `World`.  JavaScript `Map` objects that are
only ever copied by value (`dependencies`, `factories`) are plain association
lists; the singleton store, which is shared by reference between a root and its
children and swapped out by `snapshot`/`restore`, lives in a small heap
(`World.stores`) addressed by `singletonRef`; the mock overlay
(`mockedDependencies`) is assigned once at `createChild` and never replaced, so
within one family it is a single world-level map.  The `metaIoC`-symbol stamping
of classes is the side table `World.metaStore`.  Class identities are natural
numbers.  Factory handlers are modelled as functions of the world's fresh
allocation counter: each invocation consumes one fresh nonce, which lets
theorems talk about object identity and about how many times a handler ran;
re-entrant use of the container from inside a handler is not needed by any
claim and is not modelled.
-/

/-- A JavaScript runtime value, with just enough structure to decide
truthiness and object identity.  `obj n` is a heap object with identity `n`. -/
inductive JSValue where
  | undefined : JSValue
  | null : JSValue
  | bool : Bool → JSValue
  | num : Int → JSValue
  | str : String → JSValue
  | obj : Nat → JSValue
  deriving DecidableEq, Repr

/-- JavaScript truthiness, as used by the `if (x)` tier checks in
`Container.get`. -/
def truthy : JSValue → Bool
  | .undefined => false
  | .null => false
  | .bool b => b
  | .num n => n != 0
  | .str s => s != ""
  | .obj _ => true

@[simp] theorem truthy_undefined : truthy .undefined = false := rfl
@[simp] theorem truthy_null : truthy .null = false := rfl
@[simp] theorem truthy_bool (b : Bool) : truthy (.bool b) = b := rfl
@[simp] theorem truthy_num (n : Int) : truthy (.num n) = (n != 0) := rfl
@[simp] theorem truthy_str (s : String) : truthy (.str s) = (s != "") := rfl
@[simp] theorem truthy_obj (n : Nat) : truthy (.obj n) = true := rfl

/-- A `Map<string, unknown>` value keyed by generated ids: an association
list, first match wins.  The source keys these maps by the string
`"di" ++ n`; since that string is an injective image of the counter value
`n`, the model keys them by `n` itself. -/
abbrev JMap : Type := List (Nat × JSValue)

/-- `Map.prototype.get`, returning `none` for a missing key. -/
def jget (m : JMap) (k : Nat) : Option JSValue :=
  (m.find? (fun p => p.1 == k)).map (fun p => p.2)

/-- `Map.prototype.get` as JavaScript sees it: a missing key yields
`undefined`. -/
def jgetU (m : JMap) (k : Nat) : JSValue :=
  (jget m k).getD .undefined

/-- `Map.prototype.set` (prepend; `jget` takes the first match). -/
def jset (m : JMap) (k : Nat) (v : JSValue) : JMap :=
  (k, v) :: m

/-- The scope stored in class metadata: the three public scopes plus the
internal `mock` scope used by pre-registration mocking. -/
inductive Scope where
  | singleton : Scope
  | request : Scope
  | transient : Scope
  | mock : Scope
  deriving DecidableEq, Repr

/-- The `ClassMetadata` record `{scope, id, name}` stamped onto a class. -/
structure ClassMetadata where
  scope : Scope
  id : Nat
  name : String
  deriving DecidableEq, Repr

/-- An `IFactory` record `{dynamicClass, handler}`.  The handler consumes the
current fresh-allocation nonce of the world. -/
structure Factory where
  dynamicClass : Nat
  handler : Nat → JSValue

/-- The `factories` map: generated id to factory. -/
abbrev FMap : Type := List (Nat × Factory)

/-- Lookup in a `factories` map. -/
def fget (m : FMap) (k : Nat) : Option Factory :=
  (m.find? (fun p => p.1 == k)).map (fun p => p.2)

/-- `Map.prototype.set` for `factories`. -/
def fset (m : FMap) (k : Nat) (v : Factory) : FMap :=
  (k, v) :: m

/-- The `snapshotBackup` slot of a container. -/
structure SnapshotBackup where
  dependencies : Option JMap
  factories : Option FMap
  singletonInstances : Option Nat
  isInTestingState : Bool

/-- The per-container mutable state: local resolved-value cache
(`dependencies`), local binding table (`factories`), a heap reference to the
singleton store shared with the family, the id counter, the child flag and the
backup slot. -/
structure ContainerSt where
  dependencies : JMap
  factories : FMap
  singletonRef : Nat
  idCounter : Nat
  isChild : Bool
  snapshotBackup : SnapshotBackup

/-- The whole container family: all containers (by index, root is `0`), the
heap of singleton-store maps, the shared mock overlay, the metadata side
table, and the fresh-object counter fed to handlers. -/
structure World where
  containers : Nat → ContainerSt
  containerCount : Nat
  stores : Nat → JMap
  storeCount : Nat
  mockedDependencies : JMap
  metaStore : List (Nat × ClassMetadata)
  alloc : Nat

/-- Read a container's state. -/
def World.containerD (w : World) (i : Nat) : ContainerSt := w.containers i

/-- Replace a container's state. -/
def World.setContainer (w : World) (i : Nat) (st : ContainerSt) : World :=
  { w with containers := fun j => if j = i then st else w.containers j }

/-- Replace a singleton store in the heap. -/
def World.setStore (w : World) (r : Nat) (m : JMap) : World :=
  { w with stores := fun j => if j = r then m else w.stores j }

/-- Metadata lookup (`clazz[this.metaIoC]`). -/
def metaLookup (w : World) (x : Nat) : Option ClassMetadata :=
  (w.metaStore.find? (fun p => p.1 == x)).map (fun p => p.2)

/-- `appendMetadataToClass`: stamp the identity with a metadata record. -/
def appendMetadataToClass (w : World) (x : Nat) (md : ClassMetadata) : World :=
  { w with metaStore := (x, md) :: w.metaStore }

/-- The `clazz.name` of an identity in this model. -/
def cname (x : Nat) : String := "C" ++ toString x

/-- The errors thrown by the container. -/
inductive DIError where
  | notOnChildRestore : DIError
  | singletonOnChild : DIError
  | alreadyRegistered : String → DIError
  | mustSnapshotBeforeMock : DIError
  | missingInjectedValue : DIError
  | missingModule : String → DIError
  deriving DecidableEq, Repr

/-- A fresh root container (`new Container()`). -/
def initialContainer : ContainerSt :=
  { dependencies := []
    factories := []
    singletonRef := 0
    idCounter := 0
    isChild := false
    snapshotBackup :=
      { dependencies := none, factories := none, singletonInstances := none
        isInTestingState := false } }

/-- The initial world: one root container (index 0) with singleton store 0. -/
def World.start : World :=
  { containers := fun _ => initialContainer
    containerCount := 1
    stores := fun _ => []
    storeCount := 1
    mockedDependencies := []
    metaStore := []
    alloc := 0 }

namespace Container

/-- `generateMetadata`: bump the container's counter and mint the id
`di<n>`, modelled by the counter value `n`. -/
def generateMetadata (st : ContainerSt) (scope : Scope) (name : String) :
    ClassMetadata × ContainerSt :=
  let n := st.idCounter + 1
  ({ scope := scope, id := n, name := name },
   { st with idCounter := n })

/-- `snapshot()`: back up the live structures by reference, then install
working copies (empty local cache; copies of the binding table and of the
singleton store).  The source method performs no precondition check and cannot
fail, so the embedding is a total function. -/
def snapshot (w : World) (c : Nat) : World :=
  let st := w.containerD c
  let backup : SnapshotBackup :=
    { dependencies := some st.dependencies
      factories := some st.factories
      singletonInstances := some st.singletonRef
      isInTestingState := true }
  let newRef := w.storeCount
  let w1 :=
    { w with
      stores := fun j => if j = newRef then w.stores st.singletonRef else w.stores j
      storeCount := newRef + 1 }
  w1.setContainer c
    { st with
      snapshotBackup := backup
      dependencies := []
      factories := st.factories
      singletonRef := newRef }

/-- `restore()`: only checked against being a child; clears the mock overlay
and reinstates the backed-up references (`?? new Map()` allocates a fresh
empty map when there is no backup). -/
def restore (w : World) (c : Nat) : Except DIError World :=
  let st := w.containerD c
  if st.isChild then .error .notOnChildRestore
  else
    let w1 := { w with mockedDependencies := [] }
    let refw : Nat × World :=
      match st.snapshotBackup.singletonInstances with
      | some r => (r, w1)
      | none =>
        (w1.storeCount,
         { w1 with
           stores := fun j => if j = w1.storeCount then [] else w1.stores j
           storeCount := w1.storeCount + 1 })
    .ok (refw.2.setContainer c
      { st with
        dependencies := st.snapshotBackup.dependencies.getD []
        singletonRef := refw.1
        factories := st.snapshotBackup.factories.getD []
        snapshotBackup :=
          { dependencies := none, factories := none, singletonInstances := none
            isInTestingState := false } })

/-- `createChild()`: fresh container that copies the binding table by value,
shares the singleton store and mock overlay by reference, and carries the id
counter forward.  Returns the new container's index. -/
def createChild (w : World) (c : Nat) : Nat × World :=
  let st := w.containerD c
  let child : ContainerSt :=
    { dependencies := []
      factories := st.factories
      singletonRef := st.singletonRef
      idCounter := st.idCounter
      isChild := true
      snapshotBackup :=
        { dependencies := none, factories := none, singletonInstances := none
          isInTestingState := false } }
  (w.containerCount,
   { (w.setContainer w.containerCount child) with
     containerCount := w.containerCount + 1 })

/-- `bindAsConstant(clazz, clazzInstance)`: root-only singleton registration;
places the instance in the shared singleton store and the local cache.  (The
source also stamps the metadata record onto the instance object itself; the
model treats instances as plain values and no claim observes that stamp.) -/
def bindAsConstant (w : World) (c : Nat) (x : Nat) (clazzInstance : JSValue) :
    Except DIError World :=
  let st := w.containerD c
  if st.isChild then .error .singletonOnChild
  else if (metaLookup w x).isSome then .error (.alreadyRegistered (cname x))
  else
    let mdst := generateMetadata st .singleton (cname x)
    let w1 := appendMetadataToClass (w.setContainer c mdst.2) x mdst.1
    let st2 := w1.containerD c
    let w2 := w1.setStore st2.singletonRef
      (jset (w1.stores st2.singletonRef) mdst.1.id clazzInstance)
    .ok (w2.setContainer c
      { st2 with dependencies := jset st2.dependencies mdst.1.id clazzInstance })

/-- `bindOnChildAsDynamic`: rejects singleton scope; reuses existing metadata
when present (stamping it back unchanged), then stores the factory in the
child's local table. -/
def bindOnChildAsDynamic (w : World) (c : Nat) (x : Nat)
    (handler : Nat → JSValue) (scope : Scope) : Except DIError World :=
  if scope = .singleton then .error .singletonOnChild
  else
    let st := w.containerD c
    let factory : Factory := { dynamicClass := x, handler := handler }
    match metaLookup w x with
    | some metaData =>
      let w1 := appendMetadataToClass w x metaData
      .ok (w1.setContainer c
        { st with factories := fset st.factories metaData.id factory })
    | none =>
      let mdst := generateMetadata st scope (cname x)
      let w1 := appendMetadataToClass (w.setContainer c mdst.2) x mdst.1
      let st2 := w1.containerD c
      .ok (w1.setContainer c
        { st2 with factories := fset st2.factories mdst.1.id factory })

/-- `bindOnParentAsDynamic`: fails on an already-stamped identity, else stamps
fresh metadata with the requested scope and stores the factory. -/
def bindOnParentAsDynamic (w : World) (c : Nat) (x : Nat)
    (handler : Nat → JSValue) (scope : Scope) : Except DIError World :=
  if (metaLookup w x).isSome then .error (.alreadyRegistered (cname x))
  else
    let st := w.containerD c
    let factory : Factory := { dynamicClass := x, handler := handler }
    let mdst := generateMetadata st scope (cname x)
    let w1 := appendMetadataToClass (w.setContainer c mdst.2) x mdst.1
    let st2 := w1.containerD c
    .ok (w1.setContainer c
      { st2 with factories := fset st2.factories mdst.1.id factory })

/-- `bindAsDynamic(clazz, handler, {scope})`: dispatches on `isChild`. -/
def bindAsDynamic (w : World) (c : Nat) (x : Nat)
    (handler : Nat → JSValue) (scope : Scope) : Except DIError World :=
  if (w.containerD c).isChild then bindOnChildAsDynamic w c x handler scope
  else bindOnParentAsDynamic w c x handler scope

/-- `getOrAddMockMetadata`: reuse stamped metadata, else mint a `mock`-scoped
record through this container's counter. -/
def getOrAddMockMetadata (w : World) (c : Nat) (x : Nat) :
    ClassMetadata × World :=
  match metaLookup w x with
  | some foundMetaData => (foundMetaData, w)
  | none =>
    let st := w.containerD c
    let mdst := generateMetadata st .mock (cname x)
    (mdst.1, appendMetadataToClass (w.setContainer c mdst.2) x mdst.1)

/-- `mock(clazz, mockedHandler)`: guarded by the calling container's own
`snapshotBackup.isInTestingState` flag; places the replacement in the shared
mock overlay. -/
def mock (w : World) (c : Nat) (x : Nat) (mockedHandler : JSValue) :
    Except DIError World :=
  let st := w.containerD c
  if !st.snapshotBackup.isInTestingState then .error .mustSnapshotBeforeMock
  else
    let mdw := getOrAddMockMetadata w c x
    .ok { mdw.2 with
          mockedDependencies := jset mdw.2.mockedDependencies mdw.1.id mockedHandler }

/-- `resolveFactory`: invoke the handler (consuming one fresh nonce), then
apply the scope caching policy. -/
def resolveFactory (w : World) (c : Nat) (parentFactory : Factory)
    (meta : ClassMetadata) : JSValue × World :=
  let st := w.containerD c
  let parentHandler := parentFactory.handler w.alloc
  let w1 := { w with alloc := w.alloc + 1 }
  if meta.scope = .singleton then
    (parentHandler,
     (w1.setStore st.singletonRef
        (jset (w1.stores st.singletonRef) meta.id parentHandler)).setContainer c
       { st with dependencies := jset st.dependencies meta.id parentHandler })
  else if meta.scope = .request ∧ st.isChild then
    (parentHandler,
     w1.setContainer c
       { st with dependencies := jset st.dependencies meta.id parentHandler })
  else
    (parentHandler, w1)

/-- `get(clazz)`: metadata lookup, then the truthiness-gated tier checks —
mock overlay, local cache, shared singleton store (memoizing), factory. -/
def get (w : World) (c : Nat) (x : Nat) : Except DIError (JSValue × World) :=
  match metaLookup w x with
  | none => .error .missingInjectedValue
  | some metaData =>
    let st := w.containerD c
    let mockedDependency := jgetU w.mockedDependencies metaData.id
    if truthy mockedDependency then .ok (mockedDependency, w)
    else
      let dependency := jgetU st.dependencies metaData.id
      if truthy dependency then .ok (dependency, w)
      else
        let singletonInstance := jgetU (w.stores st.singletonRef) metaData.id
        if truthy singletonInstance then
          .ok (singletonInstance,
               w.setContainer c
                 { st with dependencies := jset st.dependencies metaData.id singletonInstance })
        else
          match fget st.factories metaData.id with
          | some factory => .ok (resolveFactory w c factory metaData)
          | none => .error (.missingModule metaData.name)

end Container

instance {ε : Type u} {α : Type v} [DecidableEq ε] [DecidableEq α] :
    DecidableEq (Except ε α) := fun a b =>
  match a, b with
  | .ok x, .ok y =>
    if h : x = y then .isTrue (by rw [h])
    else .isFalse (fun hh => h (Except.ok.inj hh))
  | .error e, .error f =>
    if h : e = f then .isTrue (by rw [h])
    else .isFalse (fun hh => h (Except.error.inj hh))
  | .ok _, .error _ => .isFalse (fun hh => Except.noConfusion hh)
  | .error _, .ok _ => .isFalse (fun hh => Except.noConfusion hh)

/-- The value a `get` call returns, discarding the updated world. -/
def getV (w : World) (c : Nat) (x : Nat) : Except DIError JSValue :=
  (Container.get w c x).map (fun p => p.1)

/-- The world a `get` call leaves behind. -/
def getW (w : World) (c : Nat) (x : Nat) : Except DIError World :=
  (Container.get w c x).map (fun p => p.2)

/-
C1.  Mock precedence.  The claim quantifies over every replacement `M`, but
`get`'s mock tier is the truthiness check `if (mockedDependency)`: a falsy
replacement is skipped and resolution falls through to the real binding
(which is exactly what C9 describes).  The claim holds once `M` is truthy.
-/

/-- Setup for the mock-precedence scenario: the root binds identity 0 as a
constant `v` and identity 1 dynamically (singleton) with handler `h`; child 1
is created; the root snapshots and mocks both identities with `M`; child 2 is
created after the mocks. -/
def c1setup (v M : JSValue) (h : Nat → JSValue) : Except DIError World :=
  (Container.bindAsConstant World.start 0 0 v).bind (fun w1 =>
  (Container.bindAsDynamic w1 0 1 h .singleton).bind (fun w2 =>
    (Container.mock (Container.snapshot (Container.createChild w2 0).2 0) 0 0 M).bind (fun w5 =>
    (Container.mock w5 0 1 M).bind (fun w6 =>
      .ok (Container.createChild w6 0).2))))

/-- C1 (counterexample): with the falsy replacement `false`, `get` on the root
returns the real constant binding `obj 1`, not the mock — refuting "for every
replacement M, get(X) returns M". -/
theorem c1_mock_precedence_falsy_cex :
    (c1setup (.obj 1) (.bool false) (fun _ => .obj 2)).bind (fun w => getV w 0 0)
      = .ok (.obj 1) ∧ (JSValue.obj 1 ≠ JSValue.bool false) := by
  constructor
  · decide
  · decide

/-- C1 (amended): for every truthy replacement `M`, after `snapshot()` on the
root followed by `mock`, `get` returns `M` for both the constant-bound and the
dynamically-bound identity, from the root, from the child that existed before
the mock call, and from the child created after it, overriding the real
binding, the cached value and the singleton. -/
theorem c1_mock_precedence (v M : JSValue) (h : Nat → JSValue)
    (hM : truthy M = true) :
    (c1setup v M h).map (fun w =>
        (getV w 0 0, getV w 1 0, getV w 2 0, getV w 0 1, getV w 1 1, getV w 2 1))
      = .ok (.ok M, .ok M, .ok M, .ok M, .ok M, .ok M) := by
  simp [c1setup, Container.bindAsConstant, Container.bindAsDynamic,
    Container.bindOnParentAsDynamic, Container.createChild, Container.snapshot,
    Container.mock, Container.get, getV, World.start, initialContainer,
    World.containerD, World.setContainer, World.setStore,
    Container.generateMetadata, appendMetadataToClass, metaLookup,
    Container.getOrAddMockMetadata, jget, jgetU, jset, fget, fset, cname,
    Except.bind, Except.map, hM]

/-- C1 (witness): the amended theorem at the concrete truthy mock `obj 7`. -/
theorem c1_mock_precedence_witness :
    truthy (.obj 7) = true ∧
    (c1setup (.obj 50) (.obj 7) (fun n => .obj (100 + n))).map (fun w =>
        (getV w 0 0, getV w 1 0, getV w 2 0, getV w 0 1, getV w 1 1, getV w 2 1))
      = .ok (.ok (.obj 7), .ok (.obj 7), .ok (.obj 7),
             .ok (.obj 7), .ok (.obj 7), .ok (.obj 7)) :=
  ⟨rfl, c1_mock_precedence (.obj 50) (.obj 7) (fun n => .obj (100 + n)) rfl⟩

/-
C2.  Singleton property.  Identity 0 is bound dynamically with singleton
scope, identity 1 via `bindAsConstant`; child 1 is created before the
bindings (it still shares the singleton store by reference), children 2
and 3 after them.  The first dynamic resolution happens on child 2.
-/

/-- Setup for the singleton-sharing scenario: child 1, then the two root
bindings, then children 2 and 3. -/
def c2setup (h : Nat → JSValue) (v : JSValue) : Except DIError World :=
  (Container.bindAsDynamic (Container.createChild World.start 0).2 0 0 h .singleton).bind
    (fun w1 => (Container.bindAsConstant w1 0 1 v).bind (fun w2 =>
      .ok (Container.createChild (Container.createChild w2 0).2 0).2))

/-- C2: for a singleton-scoped dynamic binding, the first resolution (on
child 2) stores the instance in the shared singleton store and in child 2's
local cache, and every later `get` — root, sibling child 3, the pre-binding
child 1, or child 2 again — returns the identical instance `h 0`; a
`bindAsConstant` instance `v` is likewise returned identically from every
container of the family. -/
theorem c2_singleton_family_sharing (h : Nat → JSValue) (v : JSValue)
    (hT : ∀ n, truthy (h n) = true) (hv : truthy v = true) :
    (c2setup h v).bind (fun w4 => (Container.get w4 2 0).map (fun p =>
      (p.1,
       jget (p.2.stores ((p.2.containerD 2).singletonRef)) 1,
       jget ((p.2.containerD 2).dependencies) 1,
       (p.2.containerD 2).singletonRef == (p.2.containerD 0).singletonRef,
       getV p.2 0 0, getV p.2 3 0, getV p.2 1 0, getV p.2 2 0,
       getV p.2 0 1, getV p.2 2 1, getV p.2 1 1)))
    = .ok (h 0, some (h 0), some (h 0), true,
           .ok (h 0), .ok (h 0), .ok (h 0), .ok (h 0),
           .ok v, .ok v, .ok v) := by
  simp [c2setup, Container.bindAsConstant, Container.bindAsDynamic,
    Container.bindOnParentAsDynamic, Container.createChild, Container.get,
    Container.resolveFactory, getV, World.start, initialContainer,
    World.containerD, World.setContainer, World.setStore,
    Container.generateMetadata, appendMetadataToClass, metaLookup,
    jget, jgetU, jset, fget, fset, cname, Except.bind, Except.map, hT, hv]

/-- C2 (witness): the theorem at the allocating handler and a concrete
constant instance. -/
theorem c2_singleton_family_sharing_witness :
    (∀ n, truthy (.obj n) = true) ∧ truthy (.obj 77) = true ∧
    (c2setup (fun n => .obj n) (.obj 77)).bind (fun w4 =>
      (Container.get w4 2 0).map (fun p =>
        (p.1,
         jget (p.2.stores ((p.2.containerD 2).singletonRef)) 1,
         jget ((p.2.containerD 2).dependencies) 1,
         (p.2.containerD 2).singletonRef == (p.2.containerD 0).singletonRef,
         getV p.2 0 0, getV p.2 3 0, getV p.2 1 0, getV p.2 2 0,
         getV p.2 0 1, getV p.2 2 1, getV p.2 1 1)))
    = .ok (.obj 0, some (.obj 0), some (.obj 0), true,
           .ok (.obj 0), .ok (.obj 0), .ok (.obj 0), .ok (.obj 0),
           .ok (.obj 77), .ok (.obj 77), .ok (.obj 77)) :=
  ⟨fun _ => rfl, rfl,
   c2_singleton_family_sharing (fun n => .obj n) (.obj 77) (fun _ => rfl) rfl⟩

/-
C3.  Request scope.  Identity 0 is bound on the root with scope `request`;
children 1 and 2 are created afterwards.  Gets are chained so that caching
effects are observable: `p.2.alloc` counts handler invocations.
-/

/-- Setup for the request-scope scenario: one request-scoped root binding and
two sibling children. -/
def c3setup (h : Nat → JSValue) : Except DIError World :=
  (Container.bindAsDynamic World.start 0 0 h .request).bind (fun w1 =>
    .ok (Container.createChild (Container.createChild w1 0).2 0).2)

/-- C3: repeated `get` on child 1 returns the same cached instance (the
handler ran only once, `alloc = 1`); sibling child 2 resolves a distinct
instance; the root gets a fresh instance on each of two calls, distinct from
one another, and the root's local cache stays empty for this id. -/
theorem c3_request_scope (h : Nat → JSValue)
    (hT : ∀ n, truthy (h n) = true)
    (hInj : ∀ m n : Nat, m ≠ n → h m ≠ h n) :
    ((c3setup h).bind (fun w =>
      (Container.get w 1 0).bind (fun p1 =>
      (Container.get p1.2 1 0).bind (fun p2 =>
      (Container.get p2.2 2 0).bind (fun p3 =>
      (Container.get p3.2 0 0).bind (fun p4 =>
      (Container.get p4.2 0 0).map (fun p5 =>
        (p1.1, p2.1, p3.1, p4.1, p5.1,
         jget ((p5.2.containerD 0).dependencies) 1,
         p2.2.alloc)))))))
      = .ok (h 0, h 0, h 1, h 2, h 3, none, 1))
    ∧ h 0 ≠ h 1 ∧ h 2 ≠ h 3 := by
  refine ⟨?_, hInj 0 1 (by decide), hInj 2 3 (by decide)⟩
  simp [c3setup, Container.bindAsDynamic, Container.bindOnParentAsDynamic,
    Container.createChild, Container.get, Container.resolveFactory, getV,
    World.start, initialContainer, World.containerD, World.setContainer,
    World.setStore, Container.generateMetadata, appendMetadataToClass,
    metaLookup, jget, jgetU, jset, fget, fset, cname, Except.bind,
    Except.map, hT]

/-- C3 (witness): the theorem at the allocating handler. -/
theorem c3_request_scope_witness :
    ((c3setup (fun n => .obj n)).bind (fun w =>
      (Container.get w 1 0).bind (fun p1 =>
      (Container.get p1.2 1 0).bind (fun p2 =>
      (Container.get p2.2 2 0).bind (fun p3 =>
      (Container.get p3.2 0 0).bind (fun p4 =>
      (Container.get p4.2 0 0).map (fun p5 =>
        (p1.1, p2.1, p3.1, p4.1, p5.1,
         jget ((p5.2.containerD 0).dependencies) 1,
         p2.2.alloc)))))))
      = .ok (.obj 0, .obj 0, .obj 1, .obj 2, .obj 3, none, 1))
    ∧ JSValue.obj 0 ≠ JSValue.obj 1 ∧ JSValue.obj 2 ≠ JSValue.obj 3 :=
  c3_request_scope (fun n => .obj n) (fun _ => rfl)
    (fun _ _ hmn h2 => hmn (JSValue.obj.inj h2))

/-
C4.  The source `snapshot()` (src/index.ts:53-63) performs no precondition
check at all: it neither rejects a child caller nor a second consecutive
call, although the repository's own test suite expects both to throw
("Not available to backup container data by calling the method 'snapshot'
from the child container", "Consecutive calls on method 'snapshot' are
forbidden").  The theorem evaluates the embedded code at both failing
inputs: a child's snapshot completes and flips that child's testing flag
(so the child may then mock), and a second root snapshot completes and
overwrites the backup with the session's working state (the backed-up local
cache becomes the empty working copy, losing the pre-session cache).
-/

/-- C4: evaluating `snapshot` at the inputs the claim says must fail.  The
child call succeeds (the child can mock afterwards), and the consecutive root
call succeeds, replacing the backup `[(1, obj 1)]` of the first call by the
working copy `[]`. -/
theorem c4_snapshot_unguarded :
    (Container.bindAsConstant World.start 0 0 (.obj 1)).map (fun w1 =>
      (((Container.snapshot (Container.createChild w1 0).2 1).containerD 1).snapshotBackup.isInTestingState,
       (Container.mock (Container.snapshot (Container.createChild w1 0).2 1) 1 0 (.obj 2)).map
         (fun w => jget w.mockedDependencies 1),
       ((Container.snapshot w1 0).containerD 0).snapshotBackup.dependencies,
       ((Container.snapshot (Container.snapshot w1 0) 0).containerD 0).snapshotBackup.dependencies))
    = .ok (true, .ok (some (.obj 2)), some [(1, .obj 1)], some []) := rfl

/-
C5.  The source `restore()` (src/index.ts:65-74) checks only `isChild`.  On a
root in the NORMAL state (no active snapshot) it does not fail: it clears the
mock overlay and, because every backup slot is `null`, replaces the binding
table, singleton store and local cache with fresh empty maps — destroying all
registrations.  The repository's own test suite expects "Consecutive calls on
method 'restore' are forbidden".  The theorem evaluates the embedded code at
the failing input.
-/

/-- C5: on a root with a constant binding and no active snapshot, `restore`
succeeds and wipes the local cache, the singleton store and the binding
table, so a subsequent `get` fails with the missing-module error. -/
theorem c5_restore_unguarded :
    ((Container.bindAsConstant World.start 0 0 (.obj 3)).bind (fun w1 =>
      (Container.restore w1 0).map (fun w2 =>
        ((w2.containerD 0).dependencies,
         w2.stores ((w2.containerD 0).singletonRef),
         w2.mockedDependencies,
         getV w2 0 0)))
      = .ok ([], [], [], .error (.missingModule "C0")))
    ∧ ((Container.bindAsConstant World.start 0 0 (.obj 3)).bind (fun w1 =>
        (Container.restore w1 0).map (fun w2 => (w2.containerD 0).factories)))
      = .ok [] :=
  ⟨by decide, rfl⟩

/-
C6.  The `mock` guard reads `this.snapshotBackup.isInTestingState` — a
per-container flag.  `createChild` gives every child a fresh backup slot with
the flag `false` and never copies the parent's, so after the root's
`snapshot()` a child's `mock` still throws the must-snapshot error: the
session state is not family-wide.
-/

/-- C6 (counterexample): after the root has snapshotted, `mock` on a child
created from that root fails with the must-snapshot error, refuting the
family-wide reading of the precondition. -/
theorem c6_child_mock_fails_cex :
    (Container.bindAsConstant World.start 0 0 (.obj 1)).bind (fun w1 =>
      Container.mock (Container.createChild (Container.snapshot w1 0) 0).2 1 0 (.obj 5))
    = .error .mustSnapshotBeforeMock := rfl

/-- Setup for the per-container mock-guard scenario: a root constant binding,
a root snapshot, then a child. -/
def c6setup (v : JSValue) : Except DIError World :=
  (Container.bindAsConstant World.start 0 0 v).map (fun w1 =>
    (Container.createChild (Container.snapshot w1 0) 0).2)

/-- C6 (amended): the guard is the calling container's own testing flag:
before `snapshot` the root's `mock` fails; after the root's `snapshot`, the
root's `mock` succeeds and the replacement is visible from the whole family,
while `mock` on the child still fails with the same error. -/
theorem c6_mock_guard_per_container (v M : JSValue) (hM : truthy M = true) :
    (Container.bindAsConstant World.start 0 0 v).bind (fun w1 =>
        Container.mock w1 0 0 M) = .error .mustSnapshotBeforeMock
    ∧ (c6setup v).bind (fun w3 => Container.mock w3 1 0 M)
        = .error .mustSnapshotBeforeMock
    ∧ (c6setup v).bind (fun w3 => (Container.mock w3 0 0 M).map (fun w4 =>
        (getV w4 0 0, getV w4 1 0)))
        = .ok (.ok M, .ok M) := by
  refine ⟨?_, ?_, ?_⟩ <;>
    simp [c6setup, Container.bindAsConstant, Container.createChild,
      Container.snapshot, Container.mock, Container.get,
      Container.getOrAddMockMetadata, getV, World.start, initialContainer,
      World.containerD, World.setContainer, World.setStore,
      Container.generateMetadata, appendMetadataToClass, metaLookup,
      jget, jgetU, jset, fget, cname, Except.bind, Except.map, hM]

/-- C6 (witness): the amended theorem at concrete values. -/
theorem c6_mock_guard_per_container_witness :
    truthy (.obj 9) = true ∧
    ((Container.bindAsConstant World.start 0 0 (.obj 4)).bind (fun w1 =>
        Container.mock w1 0 0 (.obj 9)) = .error .mustSnapshotBeforeMock
     ∧ (c6setup (.obj 4)).bind (fun w3 => Container.mock w3 1 0 (.obj 9))
         = .error .mustSnapshotBeforeMock
     ∧ (c6setup (.obj 4)).bind (fun w3 =>
         (Container.mock w3 0 0 (.obj 9)).map (fun w4 =>
           (getV w4 0 0, getV w4 1 0)))
         = .ok (.ok (.obj 9), .ok (.obj 9))) :=
  ⟨rfl, c6_mock_guard_per_container (.obj 4) (.obj 9) rfl⟩

/-
C7.  Id uniqueness.  The counter is copied, not shared, at `createChild`:
when a parent stamps a new identity after a child already exists, parent and
child mint the same id.  Identity 0 (stamped by the root after the child was
created) and identity 1 (stamped by the child) both receive id 1, and
`get` of identity 0 on the child then returns the instance produced by
identity 1's handler.
-/

/-- Setup for the id-collision scenario: child first, then the root stamps
identity 0 (handler yields `obj 10`), then the child stamps identity 1
(handler yields `obj 20`). -/
def c7cex : Except DIError World :=
  (Container.bindAsDynamic (Container.createChild World.start 0).2 0 0
      (fun _ => .obj 10) .singleton).bind (fun w2 =>
    Container.bindAsDynamic w2 1 1 (fun _ => .obj 20) .request)

/-- C7 (counterexample): the two distinct identities 0 and 1 are stamped with
the same id 1, and `get` of identity 0 on the child returns `obj 20`, the
instance registered for identity 1 — not identity 0's `obj 10`. -/
theorem c7_id_collision_cex :
    (c7cex.map (fun w3 =>
      ((metaLookup w3 0).map (fun md => md.id),
       (metaLookup w3 1).map (fun md => md.id),
       getV w3 1 0))
      = .ok (some 1, some 1, .ok (.obj 20)))
    ∧ (0 : Nat) ≠ 1 ∧ JSValue.obj 20 ≠ JSValue.obj 10 :=
  ⟨rfl, by decide, by decide⟩

/-- A registration call: `bindAsConstant` with an instance, or `bindAsDynamic`
with a handler and a scope. -/
inductive BindSpec where
  | const : JSValue → BindSpec
  | dyn : (Nat → JSValue) → Scope → BindSpec

/-- Perform a registration described by a `BindSpec`. -/
def bindAny (w : World) (c : Nat) (x : Nat) : BindSpec → Except DIError World
  | .const v => Container.bindAsConstant w c x v
  | .dyn h s => Container.bindAsDynamic w c x h s

/-- C7 (amended): two distinct identities stamped through the *same*
container (here the root, by either registration method in either
combination) receive the distinct ids 1 and 2; the collision of the
counterexample needs two different containers whose lifetimes overlap. -/
theorem c7_same_container_distinct_ids (a b : Nat) (s1 s2 : BindSpec)
    (hab : a ≠ b) :
    (bindAny World.start 0 a s1).bind (fun w1 =>
      (bindAny w1 0 b s2).map (fun w2 =>
        ((metaLookup w2 a).map (fun md => md.id),
         (metaLookup w2 b).map (fun md => md.id))))
      = .ok (some 1, some 2) ∧ (1 : Nat) ≠ 2 := by
  have hab1 : (a == b) = false := by simp [hab]
  have hab2 : (b == a) = false := by simp [Ne.symm hab]
  refine ⟨?_, by decide⟩
  cases s1 <;> cases s2 <;>
    simp [bindAny, Container.bindAsConstant, Container.bindAsDynamic,
      Container.bindOnParentAsDynamic, World.start, initialContainer,
      World.containerD, World.setContainer, World.setStore,
      Container.generateMetadata, appendMetadataToClass, metaLookup,
      jget, jgetU, jset, fget, fset, cname, Except.bind, Except.map,
      hab1, hab2]

/-- C7 (witness): the amended theorem at identities 0 and 1 with a constant
and a dynamic registration. -/
theorem c7_same_container_distinct_ids_witness :
    (0 : Nat) ≠ 1 ∧
    ((bindAny World.start 0 0 (.const (.obj 1))).bind (fun w1 =>
      (bindAny w1 0 1 (.dyn (fun _ => .obj 2) .request)).map (fun w2 =>
        ((metaLookup w2 0).map (fun md => md.id),
         (metaLookup w2 1).map (fun md => md.id))))
      = .ok (some 1, some 2) ∧ (1 : Nat) ≠ 2) :=
  ⟨by decide,
   c7_same_container_distinct_ids 0 1 (.const (.obj 1))
     (.dyn (fun _ => .obj 2) .request) (by decide)⟩

/-
C8.  Child rebind quirk.  `bindOnChildAsDynamic` reuses existing metadata
unchanged (`?? this.generateMetadata(...)` only fires when none is stamped),
so a differing requested scope is silently ignored; the factory goes into
the child's own table while the ancestor's table is untouched.
-/

/-- Setup for the child-rebind scenario: the root stamps identity 0 with
scope `s1` and handler `h1`, then a child is created. -/
def c8setup (h1 : Nat → JSValue) (s1 : Scope) : Except DIError World :=
  (Container.bindAsDynamic World.start 0 0 h1 s1).map (fun w1 =>
    (Container.createChild w1 0).2)

/-- C8: rebinding identity 0 on the child with a different requested scope
`s2` (request or transient) succeeds, leaves the stamped scope `s1`
unchanged, stores the new factory (with handler `h2`) in the child's local
table, and leaves the root's binding table exactly as it was. -/
theorem c8_child_rebind_scope_quirk (h1 h2 : Nat → JSValue) (s1 s2 : Scope)
    (_hs1 : s1 ≠ .mock) (hs2 : s2 = .request ∨ s2 = .transient)
    (_hdiff : s2 ≠ s1) :
    (c8setup h1 s1).bind (fun w2 =>
      (Container.bindAsDynamic w2 1 0 h2 s2).map (fun w3 =>
        ((metaLookup w3 0).map (fun md => md.scope),
         fget ((w3.containerD 1).factories) 1,
         (w3.containerD 0).factories)))
    = .ok (some s1, some ⟨0, h2⟩, [(1, ⟨0, h1⟩)]) := by
  rcases hs2 with hs2 | hs2 <;> subst hs2 <;>
    simp [c8setup, Container.bindAsDynamic, Container.bindOnParentAsDynamic,
      Container.bindOnChildAsDynamic, Container.createChild, World.start,
      initialContainer, World.containerD, World.setContainer, World.setStore,
      Container.generateMetadata, appendMetadataToClass, metaLookup,
      jget, jgetU, jset, fget, fset, cname, Except.bind, Except.map]

/-- C8 (witness): the theorem with a singleton-stamped identity rebound on
the child as request-scoped. -/
theorem c8_child_rebind_scope_quirk_witness :
    Scope.singleton ≠ Scope.mock ∧
    (Scope.request = Scope.request ∨ Scope.request = Scope.transient) ∧
    Scope.request ≠ Scope.singleton ∧
    (c8setup (fun _ => .obj 1) .singleton).bind (fun w2 =>
      (Container.bindAsDynamic w2 1 0 (fun _ => .obj 2) .request).map (fun w3 =>
        ((metaLookup w3 0).map (fun md => md.scope),
         fget ((w3.containerD 1).factories) 1,
         (w3.containerD 0).factories)))
    = .ok (some .singleton, some ⟨0, fun _ => .obj 2⟩, [(1, ⟨0, fun _ => .obj 1⟩)]) :=
  ⟨by decide, Or.inl rfl, by decide,
   c8_child_rebind_scope_quirk (fun _ => .obj 1) (fun _ => .obj 2)
     .singleton .request (by decide) (Or.inl rfl) (by decide)⟩

/-
C9.  Falsy fall-through.  Every tier check in `get` is `if (value)`:
a falsy stored value is indistinguishable from an absent key.  Part one:
a falsy mock replacement is skipped and the real (truthy) binding answers.
Part two: a singleton handler returning a falsy value is re-invoked on every
`get`, because both the local cache and the singleton store entries it left
behind are falsy; the allocation counter reaching 2 records the second
handler run.
-/

/-- Setup for the falsy-mock scenario: a truthy constant binding for
identity 0, a snapshot, and a mock of identity 0 with `M`. -/
def c9mock (v M : JSValue) : Except DIError World :=
  (Container.bindAsConstant World.start 0 0 v).bind (fun w1 =>
    Container.mock (Container.snapshot w1 0) 0 0 M)

/-- Setup for the falsy-singleton scenario: identity 0 bound dynamically
(singleton scope) with a handler that always returns `vf`. -/
def c9dyn (vf : JSValue) : Except DIError World :=
  Container.bindAsDynamic World.start 0 0 (fun _ => vf) .singleton

/-- C9: with a falsy mock replacement `M`, `get` falls through the mock tier
and returns the real binding `v`; with a singleton handler returning a falsy
`vf`, two consecutive `get` calls both return `vf` and run the handler twice
(`alloc = 2`), the falsy cache and singleton entries being treated as
absent. -/
theorem c9_falsy_fall_through (v M vf : JSValue)
    (hv : truthy v = true) (hM : truthy M = false) (hvf : truthy vf = false) :
    ((c9mock v M).map (fun w => getV w 0 0) = .ok (.ok v))
    ∧ ((c9dyn vf).bind (fun w1 =>
        (Container.get w1 0 0).bind (fun p1 =>
        (Container.get p1.2 0 0).map (fun p2 =>
          (p1.1, p2.1, p2.2.alloc))))
        = .ok (vf, vf, 2)) := by
  constructor <;>
    simp [c9mock, c9dyn, Container.bindAsConstant, Container.bindAsDynamic,
      Container.bindOnParentAsDynamic, Container.snapshot, Container.mock,
      Container.get, Container.resolveFactory, Container.getOrAddMockMetadata,
      getV, World.start, initialContainer, World.containerD,
      World.setContainer, World.setStore, Container.generateMetadata,
      appendMetadataToClass, metaLookup, jget, jgetU, jset, fget, fset, cname,
      Except.bind, Except.map, hv, hM, hvf]

/-- C9 (witness): the theorem at `v = obj 1`, `M = false`, `vf = 0`. -/
theorem c9_falsy_fall_through_witness :
    truthy (.obj 1) = true ∧ truthy (.bool false) = false ∧
    truthy (.num 0) = false ∧
    (((c9mock (.obj 1) (.bool false)).map (fun w => getV w 0 0)
        = .ok (.ok (.obj 1)))
     ∧ ((c9dyn (.num 0)).bind (fun w1 =>
         (Container.get w1 0 0).bind (fun p1 =>
         (Container.get p1.2 0 0).map (fun p2 =>
           (p1.1, p2.1, p2.2.alloc))))
         = .ok (.num 0, .num 0, 2))) :=
  ⟨rfl, rfl, rfl,
   c9_falsy_fall_through (.obj 1) (.bool false) (.num 0) rfl rfl rfl⟩

/-
C10.  Session-child detachment.  `snapshot` gives the root a fresh working
singleton store (heap slot 1, a copy of slot 0) and keeps the backup pointing
at slot 0.  A child created during the session shares slot 1 and copies the
working binding table.  `restore` points the root back at slot 0, but nothing
touches the child: it keeps slot 1 forever, so singletons resolved after the
restore are no longer shared between the two.
-/

/-- Setup for the detachment scenario: a singleton binding on the root, a
snapshot, then a child created during the session. -/
def c10setup (h : Nat → JSValue) : Except DIError World :=
  (Container.bindAsDynamic World.start 0 0 h .singleton).map (fun w1 =>
    (Container.createChild (Container.snapshot w1 0) 0).2)

/-- C10: during the session the child shares the root's working singleton
store and holds a copy of the working binding table; after `restore` the
root is back on the backed-up store while the child keeps the working one,
and a singleton resolved first on the child (`h 0`, landing in the child's
store) is not seen by the root, which re-resolves to the distinct `h 1`
(and vice versa: each store holds its own instance). -/
theorem c10_session_child_detachment (h : Nat → JSValue)
    (_hT : ∀ n, truthy (h n) = true)
    (hInj : ∀ m n : Nat, m ≠ n → h m ≠ h n) :
    ((c10setup h).bind (fun w2 =>
      (Container.restore w2 0).bind (fun w3 =>
        (Container.get w3 1 0).bind (fun p1 =>
        (Container.get p1.2 0 0).map (fun p2 =>
          ((w2.containerD 1).singletonRef == (w2.containerD 0).singletonRef,
           (w2.containerD 1).factories,
           (w3.containerD 0).singletonRef, (w3.containerD 1).singletonRef,
           p1.1, p2.1,
           jget (p2.2.stores ((p2.2.containerD 1).singletonRef)) 1,
           jget (p2.2.stores ((p2.2.containerD 0).singletonRef)) 1)))))
      = .ok (true, [(1, ⟨0, h⟩)], 0, 1, h 0, h 1, some (h 0), some (h 1)))
    ∧ h 0 ≠ h 1 := by
  refine ⟨?_, hInj 0 1 (by decide)⟩
  simp [c10setup, Container.bindAsDynamic, Container.bindOnParentAsDynamic,
    Container.createChild, Container.snapshot, Container.restore,
    Container.get, Container.resolveFactory, getV, World.start,
    initialContainer, World.containerD, World.setContainer, World.setStore,
    Container.generateMetadata, appendMetadataToClass, metaLookup,
    jget, jgetU, jset, fget, fset, cname, Except.bind, Except.map]

/-- C10 (witness): the theorem at the allocating handler. -/
theorem c10_session_child_detachment_witness :
    ((c10setup (fun n => .obj n)).bind (fun w2 =>
      (Container.restore w2 0).bind (fun w3 =>
        (Container.get w3 1 0).bind (fun p1 =>
        (Container.get p1.2 0 0).map (fun p2 =>
          ((w2.containerD 1).singletonRef == (w2.containerD 0).singletonRef,
           (w2.containerD 1).factories,
           (w3.containerD 0).singletonRef, (w3.containerD 1).singletonRef,
           p1.1, p2.1,
           jget (p2.2.stores ((p2.2.containerD 1).singletonRef)) 1,
           jget (p2.2.stores ((p2.2.containerD 0).singletonRef)) 1)))))
      = .ok (true, [(1, ⟨0, fun n => .obj n⟩)], 0, 1, .obj 0, .obj 1,
             some (.obj 0), some (.obj 1)))
    ∧ JSValue.obj 0 ≠ JSValue.obj 1 :=
  c10_session_child_detachment (fun n => .obj n) (fun _ => rfl)
    (fun _ _ hmn h2 => hmn (JSValue.obj.inj h2))
